import Mathlib

/-!
Verification of the LCIA Aggregation & Grading Engine of the FIT API.

This file shallowly embeds the core of `API/processors.py`, `API/schemas.py`,
`API/crud.py`, `API/crud_optimizations.py` and `API/processors_optimized.py`.

Modelling conventions:
* Python floats are modelled as real numbers (`ℝ`); the claims under study are
  about exact mathematical properties (monotonicity, bounds, closed formulas),
  not about floating-point rounding.
* Pydantic models are Lean structures.  A pydantic constructor call with
  keyword arguments is modelled by an `Args` record whose fields are `Option`s
  (`none` = the keyword was not supplied at the call site) together with a
  `validate` function that rejects a missing required field, mirroring
  pydantic's required-field check, and runs the declared field validators.
* Python `dict`s keyed by stage / impact-category ids are modelled either as
  association lists `List (ℕ × _)` (iteration order preserved, keys unique in
  every run of the program because they come from `dict`s) or, for the min/max
  containers that are only ever read pointwise, as total functions `ℕ → ℝ`.
* Exceptions are modelled with `Except PyErr`; each `PyErr` constructor names
  the exception class raised by the Python code.
* Identifier types keep their carrier: `ItemID` is a string, the numeric ids
  (`GeoID`, `ImpactCategoryID`, `LCStageID`, scheme ids) are naturals.
-/

namespace FIT

/-- Exception outcomes of the Python code: pydantic `ValidationError`,
plain `ValueError` (including `exceptions.ValueError`), `ZeroDivisionError`,
`exceptions.MissingLCIAValueError`, `exceptions.MultipleMissingLCIAValueErrors`,
`exceptions.MinMaxValueNotFoundError`, `exceptions.MinMaxValidationError`
and `exceptions.UnknownError`. -/
inductive PyErr where
  | validationError
  | valueError
  | zeroDivision
  | missingLCIA
  | multipleMissing
  | minMaxNotFound
  | minMaxValidation
  | unknown
deriving DecidableEq, Repr

/-- Whether an `Except` computation finished without raising. -/
def isOkE {ε α : Type _} : Except ε α → Bool
  | .ok _ => true
  | .error _ => false

@[simp] theorem isOkE_ok {ε α : Type _} (a : α) : isOkE (ε := ε) (.ok a) = true := rfl

@[simp] theorem isOkE_error {ε α : Type _} (e : ε) : isOkE (α := α) (.error e) = false := rfl

/-- Effectful map over a list, stopping at the first error.  This is how the
Python loops build up their result dictionaries entry by entry, raising out of
the loop on the first failing entry. -/
def mapExcept {ε α β : Type _} (f : α → Except ε β) : List α → Except ε (List β)
  | [] => .ok []
  | a :: as => do
    let b ← f a
    let bs ← mapExcept f as
    pure (b :: bs)

theorem mapExcept_ok {ε α β : Type _} (f : α → Except ε β) (g : α → β)
    (l : List α) (h : ∀ a ∈ l, f a = .ok (g a)) :
    mapExcept f l = .ok (l.map g) := by
  induction l with
  | nil => rfl
  | cons a as ih =>
    have ha : f a = .ok (g a) := h a (List.mem_cons_self a as)
    have hrest : mapExcept f as = .ok (as.map g) :=
      ih fun b hb => h b (List.mem_cons_of_mem a hb)
    simp only [mapExcept, ha, hrest, List.map_cons]
    rfl

/-! ## Combination Selector

`processors.generate_expected_combinations` (processors.py lines 167-190);
`processors_optimized.generate_expected_combinations` (lines 23-49) is a
byte-for-byte copy of the same loop. -/

/-- Embedding of `generate_expected_combinations`: for every selected impact
category `ic_id`, if `ic_id == 17` add the single pair `(17, 1)`, otherwise
add one pair per selected life-cycle stage.  The Python `set` is a `Finset`. -/
def generate_expected_combinations (impact_categories : List ℕ)
    (lc_stages : List ℕ) : Finset (ℕ × ℕ) :=
  impact_categories.foldl
    (fun acc ic_id =>
      if ic_id = 17 then insert (ic_id, 1) acc
      else acc ∪ (lc_stages.map (fun lc_stage_id => (ic_id, lc_stage_id))).toFinset)
    ∅

theorem mem_generate_expected_combinations_step (lc_stages : List ℕ)
    (acc : Finset (ℕ × ℕ)) (c : ℕ) (p : ℕ × ℕ) :
    p ∈ (if c = 17 then insert (c, 1) acc
         else acc ∪ (lc_stages.map (fun lc_stage_id => (c, lc_stage_id))).toFinset)
    ↔ p ∈ acc ∨ (c = 17 ∧ p = (17, 1)) ∨ (c ≠ 17 ∧ p.1 = c ∧ p.2 ∈ lc_stages) := by
  obtain ⟨p1, p2⟩ := p
  by_cases hc : c = 17
  · rw [if_pos hc]
    subst hc
    simp only [Finset.mem_insert, Prod.mk.injEq, ne_eq]
    tauto
  · rw [if_neg hc]
    simp only [Finset.mem_union, List.mem_toFinset, List.mem_map, Prod.mk.injEq, ne_eq]
    constructor
    · rintro (hp | ⟨s, hs, hcs, hsp⟩)
      · exact Or.inl hp
      · exact Or.inr (Or.inr ⟨hc, hcs.symm, hsp ▸ hs⟩)
    · rintro (hp | ⟨hc17, _⟩ | ⟨_, h1, h2⟩)
      · exact Or.inl hp
      · exact absurd hc17 hc
      · exact Or.inr ⟨p2, h2, h1.symm, rfl⟩

theorem mem_generate_expected_combinations_foldl (impact_categories lc_stages : List ℕ)
    (acc : Finset (ℕ × ℕ)) (p : ℕ × ℕ) :
    p ∈ impact_categories.foldl
      (fun acc ic_id =>
        if ic_id = 17 then insert (ic_id, 1) acc
        else acc ∪ (lc_stages.map (fun lc_stage_id => (ic_id, lc_stage_id))).toFinset)
      acc
    ↔ p ∈ acc ∨ (∃ c ∈ impact_categories,
        (c = 17 ∧ p = (17, 1)) ∨ (c ≠ 17 ∧ p.1 = c ∧ p.2 ∈ lc_stages)) := by
  induction impact_categories generalizing acc with
  | nil => simp
  | cons c cs ih =>
    rw [List.foldl_cons, ih, mem_generate_expected_combinations_step]
    constructor
    · rintro (hstep | ⟨d, hd, hcase⟩)
      · rcases hstep with hp | hcase
        · exact Or.inl hp
        · exact Or.inr ⟨c, List.mem_cons_self _ _, hcase⟩
      · exact Or.inr ⟨d, List.mem_cons_of_mem _ hd, hcase⟩
    · rintro (hp | ⟨d, hd, hcase⟩)
      · exact Or.inl (Or.inl hp)
      · rcases List.mem_cons.mp hd with hdc | hdcs
        · exact Or.inl (Or.inr (hdc ▸ hcase))
        · exact Or.inr ⟨d, hdcs, hcase⟩

/-- C5: for every list of selected impact categories and selected life-cycle
stages, the combination selector returns exactly the pairs (category, stage)
for every selected category other than 17 and every selected stage, plus the
single pair (17, 1) whenever category 17 is selected, no matter which stages
are selected. -/
theorem generate_expected_combinations_spec (impact_categories lc_stages : List ℕ)
    (ic_id lc_stage_id : ℕ) :
    (ic_id, lc_stage_id) ∈ generate_expected_combinations impact_categories lc_stages
    ↔ (ic_id ∈ impact_categories ∧ ic_id ≠ 17 ∧ lc_stage_id ∈ lc_stages)
      ∨ (ic_id = 17 ∧ 17 ∈ impact_categories ∧ lc_stage_id = 1) := by
  unfold generate_expected_combinations
  rw [mem_generate_expected_combinations_foldl]
  simp only [Finset.not_mem_empty, false_or, Prod.mk.injEq]
  constructor
  · rintro ⟨c, hc, ⟨hc17, hic, hlc⟩ | ⟨hne, h1, h2⟩⟩
    · exact Or.inr ⟨hic, hc17 ▸ hc, hlc⟩
    · exact Or.inl ⟨h1 ▸ hc, h1 ▸ hne, h2⟩
  · rintro (⟨hic, hne, hlc⟩ | ⟨h17, hmem, h1⟩)
    · exact ⟨ic_id, hic, Or.inr ⟨hne, rfl, hlc⟩⟩
    · exact ⟨17, hmem, Or.inl ⟨rfl, h17, h1⟩⟩

/-- Concrete instances of the selector specification. -/
theorem generate_expected_combinations_spec_witness :
    (17, 1) ∈ generate_expected_combinations [3, 17] [2, 4] ∧
    (3, 4) ∈ generate_expected_combinations [3, 17] [2, 4] ∧
    ¬ (17, 2) ∈ generate_expected_combinations [3, 17] [2, 4] := by
  refine ⟨?_, ?_, ?_⟩
  · exact (generate_expected_combinations_spec [3, 17] [2, 4] 17 1).mpr
      (Or.inr ⟨rfl, by decide, rfl⟩)
  · exact (generate_expected_combinations_spec [3, 17] [2, 4] 3 4).mpr
      (Or.inl ⟨by decide, by decide, by decide⟩)
  · intro h
    rcases (generate_expected_combinations_spec [3, 17] [2, 4] 17 2).mp h with
      ⟨_, hne, _⟩ | ⟨_, _, h1⟩
    · exact hne rfl
    · exact absurd h1 (by decide)

/-! ## Grading primitives

The remainder of the engine computes with real numbers (`math.log`,
`math.sqrt`), so the definitions below are noncomputable reals. -/

noncomputable section
open scoped Classical

/-- `schemas.GradedLCIAValue` (schemas.py lines 692-735): raw value, scaled
value and an optional letter grade. -/
structure GradedLCIAValue where
  lcia_value : ℝ
  scaled_value : ℝ
  grade : Option String

/-- Pydantic construction of a `GradedLCIAValue`: the field validator
`check_scaled_range` (schemas.py lines 705-712) rejects any scaled value
outside `[0, 1]` with a `ValidationError`. -/
def GradedLCIAValue.validate (lcia_value scaled_value : ℝ) (grade : Option String) :
    Except PyErr GradedLCIAValue :=
  if 0 ≤ scaled_value ∧ scaled_value ≤ 1 then .ok ⟨lcia_value, scaled_value, grade⟩
  else .error .validationError

/-- `GradedLCIAValue.assign_grade` (schemas.py lines 714-735). -/
def GradedLCIAValue.assign_grade (scaled_value : ℝ) : String :=
  if scaled_value ≥ 0.7 then "E"
  else if scaled_value ≥ 0.5 then "D"
  else if scaled_value ≥ 0.3 then "C"
  else if scaled_value ≥ 0.1 then "B"
  else "A"

/-- `processors.log_scale` (processors.py lines 31-56): shift every quantity
by `+1`, take the log min-max ratio, then divide by the square root of the
normalization factor. -/
def log_scale (value min_value max_value normalization : ℝ) : ℝ :=
  ((Real.log (value + 1) - Real.log (min_value + 1)) /
      (Real.log (max_value + 1) - Real.log (min_value + 1))) / Real.sqrt normalization

/-- `processors.get_combined_grade` (processors.py lines 16-28): the Euclidean
norm of the scaled values divided by the square root of their count.  Python
raises `ZeroDivisionError` exactly when the argument tuple is empty, since
`math.sqrt(len(...))` is `0.0` precisely for length zero. -/
def get_combined_grade (scaled_lcia_values : List ℝ) : Except PyErr ℝ :=
  if scaled_lcia_values.length = 0 then .error .zeroDivision
  else .ok (Real.sqrt ((scaled_lcia_values.map (fun value => value ^ 2)).sum) /
      Real.sqrt (scaled_lcia_values.length : ℝ))

/-- C4: grade assignment is a pure function of the scaled value with
half-open, lower-bound-inclusive buckets; each boundary value in
`{0.1, 0.3, 0.5, 0.7}` lands in the higher (worse) bucket. -/
theorem assign_grade_buckets :
    (∀ s : ℝ,
      (0.7 ≤ s → GradedLCIAValue.assign_grade s = "E") ∧
      (0.5 ≤ s → s < 0.7 → GradedLCIAValue.assign_grade s = "D") ∧
      (0.3 ≤ s → s < 0.5 → GradedLCIAValue.assign_grade s = "C") ∧
      (0.1 ≤ s → s < 0.3 → GradedLCIAValue.assign_grade s = "B") ∧
      (s < 0.1 → GradedLCIAValue.assign_grade s = "A")) ∧
    GradedLCIAValue.assign_grade 0.1 = "B" ∧
    GradedLCIAValue.assign_grade 0.3 = "C" ∧
    GradedLCIAValue.assign_grade 0.5 = "D" ∧
    GradedLCIAValue.assign_grade 0.7 = "E" := by
  have general : ∀ s : ℝ,
      (0.7 ≤ s → GradedLCIAValue.assign_grade s = "E") ∧
      (0.5 ≤ s → s < 0.7 → GradedLCIAValue.assign_grade s = "D") ∧
      (0.3 ≤ s → s < 0.5 → GradedLCIAValue.assign_grade s = "C") ∧
      (0.1 ≤ s → s < 0.3 → GradedLCIAValue.assign_grade s = "B") ∧
      (s < 0.1 → GradedLCIAValue.assign_grade s = "A") := by
    intro s
    refine ⟨?_, ?_, ?_, ?_, ?_⟩
    · intro h
      unfold GradedLCIAValue.assign_grade
      rw [if_pos h]
    · intro h1 h2
      unfold GradedLCIAValue.assign_grade
      rw [if_neg (not_le.mpr h2), if_pos h1]
    · intro h1 h2
      unfold GradedLCIAValue.assign_grade
      rw [if_neg (not_le.mpr (h2.trans (by norm_num))), if_neg (not_le.mpr h2), if_pos h1]
    · intro h1 h2
      unfold GradedLCIAValue.assign_grade
      rw [if_neg (not_le.mpr (h2.trans (by norm_num))),
        if_neg (not_le.mpr (h2.trans (by norm_num))), if_neg (not_le.mpr h2), if_pos h1]
    · intro h
      unfold GradedLCIAValue.assign_grade
      rw [if_neg (not_le.mpr (h.trans (by norm_num))),
        if_neg (not_le.mpr (h.trans (by norm_num))),
        if_neg (not_le.mpr (h.trans (by norm_num))), if_neg (not_le.mpr h)]
  refine ⟨general, ?_, ?_, ?_, ?_⟩
  · exact (general 0.1).2.2.2.1 le_rfl (by norm_num)
  · exact (general 0.3).2.2.1 le_rfl (by norm_num)
  · exact (general 0.5).2.1 le_rfl (by norm_num)
  · exact (general 0.7).1 le_rfl

/-- Concrete instance of the grading buckets. -/
theorem assign_grade_buckets_witness :
    GradedLCIAValue.assign_grade 0.65 = "D" ∧ GradedLCIAValue.assign_grade 0.05 = "A" := by
  obtain ⟨general, -, -, -, -⟩ := assign_grade_buckets
  exact ⟨(general 0.65).2.1 (by norm_num) (by norm_num), (general 0.05).2.2.2.2 (by norm_num)⟩

/-- C8: for fixed `0 ≤ min < max` and positive normalization, `log_scale` is
monotonically non-decreasing in `value` on the non-negative reals; with the
normalization factor `1` (i.e. before the division by `sqrt(normalization)`)
it maps `min` to `0` and `max` to `1`; and
`log_scale 9 0 99 1 = (ln 10 - ln 1) / (ln 100 - ln 1) = 1/2` exactly. -/
theorem log_scale_monotone_and_endpoints (min_value max_value normalization : ℝ)
    (hmin : 0 ≤ min_value) (hlt : min_value < max_value) (hnorm : 0 < normalization) :
    (∀ v w : ℝ, 0 ≤ v → v ≤ w →
      log_scale v min_value max_value normalization ≤
        log_scale w min_value max_value normalization) ∧
    log_scale min_value min_value max_value 1 = 0 ∧
    log_scale max_value min_value max_value 1 = 1 ∧
    log_scale 9 0 99 1 = 1 / 2 := by
  have hden : 0 < Real.log (max_value + 1) - Real.log (min_value + 1) :=
    sub_pos.mpr (Real.log_lt_log (by linarith) (by linarith))
  have hsqrt : 0 < Real.sqrt normalization := Real.sqrt_pos.mpr hnorm
  refine ⟨?_, ?_, ?_, ?_⟩
  · intro v w hv hvw
    unfold log_scale
    have hnum : Real.log (v + 1) - Real.log (min_value + 1) ≤
        Real.log (w + 1) - Real.log (min_value + 1) :=
      sub_le_sub_right (Real.log_le_log (by linarith) (by linarith)) _
    exact (div_le_div_iff_of_pos_right hsqrt).mpr
      ((div_le_div_iff_of_pos_right hden).mpr hnum)
  · unfold log_scale
    rw [sub_self, zero_div, Real.sqrt_one, div_one]
  · unfold log_scale
    rw [div_self hden.ne', Real.sqrt_one, div_one]
  · unfold log_scale
    have h10 : Real.log 10 > 0 := Real.log_pos (by norm_num)
    have h100 : (99 : ℝ) + 1 = 10 ^ 2 := by norm_num
    rw [h100, Real.log_pow]
    norm_num [Real.log_one, Real.sqrt_one]
    field_simp
    ring

/-- Concrete instance of the `log_scale` properties at `min = 0`, `max = 99`,
`normalization = 1`. -/
theorem log_scale_monotone_and_endpoints_witness :
    log_scale 3 0 99 1 ≤ log_scale 9 0 99 1 ∧
    log_scale 0 0 99 1 = 0 ∧ log_scale 99 0 99 1 = 1 := by
  obtain ⟨mono, h0, h1, -⟩ :=
    log_scale_monotone_and_endpoints 0 99 1 le_rfl (by norm_num) (by norm_num)
  exact ⟨mono 3 9 (by norm_num) (by norm_num), h0, h1⟩

/-! ## Result aggregates

`schemas.LCIAResult` (schemas.py lines 593-620) and `schemas.GradedLCIAResult`
(lines 738-747).  Each comes with an `Args` record for the keyword arguments of
a pydantic constructor call (`none` = keyword not supplied) and a `validate`
function enforcing pydantic's required-field check. -/

/-- `schemas.LCIAResult`: all eight fields are required (no defaults). -/
structure LCIAResult where
  item_id : String
  geo_id : ℕ
  proxy_flag : Bool
  single_score : ℝ
  stage_values : List (ℕ × ℝ)
  impact_category_values : List (ℕ × ℝ)
  ic_normalization : ℕ → ℕ
  lc_normalization : ℕ → ℕ

/-- Keyword arguments of a `schemas.LCIAResult(...)` call. -/
structure LCIAResultArgs where
  item_id : Option String := none
  geo_id : Option ℕ := none
  proxy_flag : Option Bool := none
  single_score : Option ℝ := none
  stage_values : Option (List (ℕ × ℝ)) := none
  impact_category_values : Option (List (ℕ × ℝ)) := none
  ic_normalization : Option (ℕ → ℕ) := none
  lc_normalization : Option (ℕ → ℕ) := none

/-- Pydantic construction of an `LCIAResult`: every field of the schema is
required, so a call that omits one raises a `ValidationError`. -/
def LCIAResult.validate (a : LCIAResultArgs) : Except PyErr LCIAResult :=
  match a.item_id, a.geo_id, a.proxy_flag, a.single_score, a.stage_values,
      a.impact_category_values, a.ic_normalization, a.lc_normalization with
  | some item_id, some geo_id, some proxy_flag, some single_score, some stage_values,
      some impact_category_values, some icn, some lcn =>
      .ok ⟨item_id, geo_id, proxy_flag, single_score, stage_values,
        impact_category_values, icn, lcn⟩
  | _, _, _, _, _, _, _, _ => .error .validationError

/-- `schemas.GradedLCIAResult`: `item_id` and `geo_id` are optional with
default `None`; `proxy_flag`, `single_score`, `stage_values` and
`impact_category_values` are required. -/
structure GradedLCIAResult where
  item_id : Option String
  geo_id : Option ℕ
  proxy_flag : Bool
  single_score : GradedLCIAValue
  stage_values : List (ℕ × GradedLCIAValue)
  impact_category_values : List (ℕ × GradedLCIAValue)

/-- Keyword arguments of a `schemas.GradedLCIAResult(...)` call. -/
structure GradedLCIAResultArgs where
  item_id : Option String := none
  geo_id : Option ℕ := none
  proxy_flag : Option Bool := none
  single_score : Option GradedLCIAValue := none
  stage_values : Option (List (ℕ × GradedLCIAValue)) := none
  impact_category_values : Option (List (ℕ × GradedLCIAValue)) := none

/-- Pydantic construction of a `GradedLCIAResult`: omitting the required
`proxy_flag`, `single_score`, `stage_values` or `impact_category_values`
keyword raises a `ValidationError`; `item_id` and `geo_id` default to `None`. -/
def GradedLCIAResult.validate (a : GradedLCIAResultArgs) : Except PyErr GradedLCIAResult :=
  match a.proxy_flag, a.single_score, a.stage_values, a.impact_category_values with
  | some proxy_flag, some single_score, some stage_values, some impact_category_values =>
      .ok ⟨a.item_id, a.geo_id, proxy_flag, single_score, stage_values,
        impact_category_values⟩
  | _, _, _, _ => .error .validationError

/-- `schemas.MinMaxValues` (schemas.py lines 629-689).  The per-category and
per-stage min/max dictionaries are only ever read pointwise, so they are
modelled as total functions on the ids. -/
structure MinMaxValues where
  scheme_id : ℕ
  single_score_max : ℝ
  single_score_min : ℝ
  ic_mins : ℕ → ℝ
  ic_maxs : ℕ → ℝ
  lc_mins : ℕ → ℝ
  lc_maxs : ℕ → ℝ

/-- The three `model_validator`s of `schemas.MinMaxValues` (lines 638-689):
construction fails with a `MinMaxValidationError` when `min ≥ max` for the
single score, for any requested impact category, or for any requested stage. -/
def MinMaxValues.validate (ics lc_stages : List ℕ) (m : MinMaxValues) :
    Except PyErr MinMaxValues :=
  if m.single_score_min ≥ m.single_score_max then .error .minMaxValidation
  else if ∃ ic ∈ ics, m.ic_mins ic ≥ m.ic_maxs ic then .error .minMaxValidation
  else if ∃ lc ∈ lc_stages, m.lc_mins lc ≥ m.lc_maxs lc then .error .minMaxValidation
  else .ok m

/-! ## Grading Engine

`processors.apply_grading_scheme` (processors.py lines 59-164). -/

/-- One `try: GradedLCIAValue(...) except ValidationError: raise ValueError`
block of `apply_grading_scheme` (lines 87-99, 114-126 and 142-155): the grade
is assigned from the scaled value and a failed range validation is re-raised
as a `ValueError`. -/
def tryGraded (lcia_value scaled_value : ℝ) : Except PyErr GradedLCIAValue :=
  match GradedLCIAValue.validate lcia_value scaled_value
      (some (GradedLCIAValue.assign_grade scaled_value)) with
  | .ok graded => .ok graded
  | .error _ => .error .valueError

/-- The value-grading part of `apply_grading_scheme` (lines 76-155): log-scale
and grade the single score (normalization 1), every stage value (normalization
`ic_normalization[stage_id]`) and every impact-category value (normalization
`lc_normalization[impact_category_id]`).  No clamping of the raw value into
`[min, max]` happens anywhere. -/
def grade_lcia_components (lcia_result : LCIAResult) (min_max_values : MinMaxValues) :
    Except PyErr
      (GradedLCIAValue × List (ℕ × GradedLCIAValue) × List (ℕ × GradedLCIAValue)) := do
  let scaled_single_score := log_scale lcia_result.single_score
    min_max_values.single_score_min min_max_values.single_score_max 1
  let graded_single_score ← tryGraded lcia_result.single_score scaled_single_score
  let graded_stages ← mapExcept (fun p => do
      let scaled := log_scale p.2 (min_max_values.lc_mins p.1) (min_max_values.lc_maxs p.1)
        ((lcia_result.ic_normalization p.1 : ℕ) : ℝ)
      let g ← tryGraded p.2 scaled
      pure (p.1, g)) lcia_result.stage_values
  let graded_impact_categories ← mapExcept (fun p => do
      let scaled := log_scale p.2 (min_max_values.ic_mins p.1) (min_max_values.ic_maxs p.1)
        ((lcia_result.lc_normalization p.1 : ℕ) : ℝ)
      let g ← tryGraded p.2 scaled
      pure (p.1, g)) lcia_result.impact_category_values
  pure (graded_single_score, graded_stages, graded_impact_categories)

/-- The keyword arguments of the final `schemas.GradedLCIAResult(...)` call of
`apply_grading_scheme` (lines 158-164): `item_id`, `geo_id`, `single_score`,
`stage_values` and `impact_category_values` are passed; `proxy_flag` is not. -/
def apply_grading_result_args (lcia_result : LCIAResult) (gss : GradedLCIAValue)
    (gst gic : List (ℕ × GradedLCIAValue)) : GradedLCIAResultArgs :=
  { item_id := some lcia_result.item_id
    geo_id := some lcia_result.geo_id
    single_score := some gss
    stage_values := some gst
    impact_category_values := some gic }

/-- `processors.apply_grading_scheme` (lines 59-164). -/
def apply_grading_scheme (lcia_result : LCIAResult) (min_max_values : MinMaxValues) :
    Except PyErr GradedLCIAResult := do
  let (gss, gst, gic) ← grade_lcia_components lcia_result min_max_values
  GradedLCIAResult.validate (apply_grading_result_args lcia_result gss gst gic)

/-! ## Recipe Aggregator

`processors.calculate_recipe` (processors.py lines 317-396). -/

/-- Keys of the per-impact-category score dictionary built by the aggregation
loop of `calculate_recipe` (lines 342-347): every category appearing in some
item's result, first occurrences kept. -/
def icKeys (graded_lcia_results : List GradedLCIAResult) : List ℕ :=
  (graded_lcia_results.flatMap fun r => r.impact_category_values.map Prod.fst).dedup

/-- The scaled/raw contributions collected for one impact category across all
items (the list `total_impact_category_scores[category_id]` together with the
summands of `total_impact_category_raw_values[category_id]`). -/
def icContribs (graded_lcia_results : List GradedLCIAResult) (category_id : ℕ) :
    List GradedLCIAValue :=
  graded_lcia_results.flatMap fun r =>
    (r.impact_category_values.filter fun p => p.1 == category_id).map Prod.snd

/-- Keys of the per-stage score dictionary of `calculate_recipe`
(lines 350-355). -/
def stageKeys (graded_lcia_results : List GradedLCIAResult) : List ℕ :=
  (graded_lcia_results.flatMap fun r => r.stage_values.map Prod.fst).dedup

/-- The contributions collected for one life-cycle stage across all items. -/
def stageContribs (graded_lcia_results : List GradedLCIAResult) (stage_id : ℕ) :
    List GradedLCIAValue :=
  graded_lcia_results.flatMap fun r =>
    (r.stage_values.filter fun p => p.1 == stage_id).map Prod.snd

/-- Combination of one dimension in `calculate_recipe` (lines 362-370 for
categories, 374-381 for stages): Euclidean-combine the scaled values, sum the
raw values, assign the grade of the combined scaled value, and construct the
`GradedLCIAValue` (whose range validator runs). -/
def combine_dimension (contribs : List GradedLCIAValue) : Except PyErr GradedLCIAValue := do
  let combined_score_scaled ← get_combined_grade (contribs.map GradedLCIAValue.scaled_value)
  GradedLCIAValue.validate ((contribs.map GradedLCIAValue.lcia_value).sum)
    combined_score_scaled (some (GradedLCIAValue.assign_grade combined_score_scaled))

/-- The aggregation part of `calculate_recipe` (lines 328-389), everything
before the final `GradedLCIAResult(...)` construction, in source evaluation
order: combined single-score scaled value (line 358), graded impact categories
(lines 361-370), graded stages (lines 373-381), graded single score
(lines 384-389). -/
def calculate_recipe_values (graded_lcia_results : List GradedLCIAResult) :
    Except PyErr
      (GradedLCIAValue × List (ℕ × GradedLCIAValue) × List (ℕ × GradedLCIAValue)) := do
  let combined_single_score_scaled ←
    get_combined_grade (graded_lcia_results.map fun r => r.single_score.scaled_value)
  let graded_impact_categories ← mapExcept (fun c => do
      let g ← combine_dimension (icContribs graded_lcia_results c)
      pure (c, g)) (icKeys graded_lcia_results)
  let graded_stages ← mapExcept (fun s => do
      let g ← combine_dimension (stageContribs graded_lcia_results s)
      pure (s, g)) (stageKeys graded_lcia_results)
  let graded_single_score ← GradedLCIAValue.validate
    ((graded_lcia_results.map fun r => r.single_score.lcia_value).sum)
    combined_single_score_scaled
    (some (GradedLCIAValue.assign_grade combined_single_score_scaled))
  pure (graded_single_score, graded_stages, graded_impact_categories)

/-- The keyword arguments of the final `schemas.GradedLCIAResult(...)` call of
`calculate_recipe` (lines 392-396): only `single_score`, `stage_values` and
`impact_category_values` are passed — no `item_id`, no `geo_id`, and no
`proxy_flag`. -/
def calculate_recipe_result_args (gss : GradedLCIAValue)
    (gst gic : List (ℕ × GradedLCIAValue)) : GradedLCIAResultArgs :=
  { single_score := some gss
    stage_values := some gst
    impact_category_values := some gic }

/-- `processors.calculate_recipe` (lines 317-396). -/
def calculate_recipe (graded_lcia_results : List GradedLCIAResult) :
    Except PyErr GradedLCIAResult := do
  let (gss, gst, gic) ← calculate_recipe_values graded_lcia_results
  GradedLCIAResult.validate (calculate_recipe_result_args gss gst gic)

/-- The recipe-level `contains_proxy` flag computed by
`OutputData.model_dump` (schemas.py line 913): `any(self.proxy_flags.values())`
over the per-item proxy flags. -/
def output_contains_proxy (proxy_flags : List Bool) : Bool :=
  proxy_flags.any fun b => b

/-! ## Data access layer

The database is modelled as explicit lists of table rows:
`models.WeightedResults`, `models.SingleScores` and `models.MetaData`. -/

/-- A row of the `WeightedResults` table. -/
structure WRow where
  item_id : String
  geo_id : ℕ
  scheme_id : ℕ
  ic_id : ℕ
  lc_stage_id : ℕ
  weighted_value : ℝ

/-- A row of the `SingleScores` table. -/
structure SSRow where
  item_id : String
  geo_id : ℕ
  scheme_id : ℕ
  single_score : ℝ

/-- A row of the `MetaData` table (the fields the engine reads). -/
structure MetaRow where
  item_id : String
  geo_id : ℕ
  proxy_flag : Bool

/-- The `WeightedResults` query of `crud.fetch_results_from_weighted_results`
(crud.py lines 530-542): filter on item, geo, scheme and on membership of
`ic_id` and `lc_stage_id` in the id sets projected out of the expected
combinations — not on the exact pair set. -/
def weighted_query (db : List WRow) (item_id : String) (geo_id scheme_id : ℕ)
    (ic_ids lc_stage_ids : Finset ℕ) : List WRow :=
  db.filter fun r =>
    r.item_id == item_id && r.geo_id == geo_id && r.scheme_id == scheme_id &&
      decide (r.ic_id ∈ ic_ids) && decide (r.lc_stage_id ∈ lc_stage_ids)

/-- `crud.fetch_results_from_weighted_results` (crud.py lines 495-569).
A `MissingLCIAValueError` is raised only when the result set is completely
empty (line 545); otherwise the rows found are returned, with the id-range and
non-negativity validators of the result-dictionary comprehension
(`ImpactCategoryID`, `LCStageID`, `LCIAValue`) re-raised as `ValueError`. -/
def fetch_results_from_weighted_results (db : List WRow) (item_id : String)
    (geo_id scheme_id : ℕ) (expected_combinations : Finset (ℕ × ℕ)) :
    Except PyErr (List ((ℕ × ℕ) × ℝ)) :=
  if (weighted_query db item_id geo_id scheme_id
      (expected_combinations.image Prod.fst)
      (expected_combinations.image Prod.snd)).isEmpty then .error .missingLCIA
  else if ∀ r ∈ weighted_query db item_id geo_id scheme_id
      (expected_combinations.image Prod.fst) (expected_combinations.image Prod.snd),
      (1 ≤ r.ic_id ∧ r.ic_id ≤ 17) ∧
      (1 ≤ r.lc_stage_id ∧ r.lc_stage_id ≤ 6) ∧ 0 ≤ r.weighted_value then
    .ok ((weighted_query db item_id geo_id scheme_id
      (expected_combinations.image Prod.fst)
      (expected_combinations.image Prod.snd)).map fun r =>
        ((r.ic_id, r.lc_stage_id), r.weighted_value))
  else .error .valueError

/-- The `SingleScores` query of `crud.fetch_result_from_single_scores`
(crud.py lines 598-604). -/
def single_score_query (db : List SSRow) (item_id : String) (geo_id scheme_id : ℕ) :
    List SSRow :=
  db.filter fun r =>
    r.item_id == item_id && r.geo_id == geo_id && r.scheme_id == scheme_id

/-- `crud.fetch_result_from_single_scores` (crud.py lines 572-628): first
matching row, `MissingLCIAValueError` when there is none, `LCIAValue`
non-negativity validation re-raised as `ValueError`. -/
def fetch_result_from_single_scores (db : List SSRow) (item_id : String)
    (geo_id scheme_id : ℕ) : Except PyErr ℝ :=
  match (single_score_query db item_id geo_id scheme_id).head? with
  | none => .error .missingLCIA
  | some r => if 0 ≤ r.single_score then .ok r.single_score else .error .valueError

/-- Stage total computed by step 5 of `processors.get_results`
(processors.py lines 264-268): the sum of all fetched weighted values whose
stage is `stage_id` (stages of the selection that no fetched row mentions stay
at their step-4 initialisation `0.0`). -/
def stage_total (weighted_results : List ((ℕ × ℕ) × ℝ)) (stage_id : ℕ) : ℝ :=
  ((weighted_results.filter fun e => e.1.2 == stage_id).map Prod.snd).sum

/-- `ic_normalization[stage_id]` computed by step 5 of `get_results`: how many
fetched rows contributed to the stage. -/
def stage_count (weighted_results : List ((ℕ × ℕ) × ℝ)) (stage_id : ℕ) : ℕ :=
  (weighted_results.filter fun e => e.1.2 == stage_id).length

/-- Impact-category total computed by step 5 of `get_results`
(lines 270-272). -/
def category_total (weighted_results : List ((ℕ × ℕ) × ℝ)) (category_id : ℕ) : ℝ :=
  ((weighted_results.filter fun e => e.1.1 == category_id).map Prod.snd).sum

/-- `lc_normalization[category_id]` computed by step 5 of `get_results`. -/
def category_count (weighted_results : List ((ℕ × ℕ) × ℝ)) (category_id : ℕ) : ℕ :=
  (weighted_results.filter fun e => e.1.1 == category_id).length

/-- The keyword arguments of the `schemas.LCIAResult(...)` call in step 7 of
`get_results` (processors.py lines 296-305): `item_id`, `geo_id`,
`single_score`, `stage_values`, `impact_category_values`, `ic_normalization`
and `lc_normalization` are passed; `proxy_flag` is not. -/
def get_results_args (item_id : String) (geo_id : ℕ) (single_score : ℝ)
    (weighted_results : List ((ℕ × ℕ) × ℝ))
    (impact_categories life_cycle_stages : List ℕ) : LCIAResultArgs :=
  { item_id := some item_id
    geo_id := some geo_id
    single_score := some single_score
    stage_values := some (life_cycle_stages.map fun s => (s, stage_total weighted_results s))
    impact_category_values :=
      some (impact_categories.map fun c => (c, category_total weighted_results c))
    ic_normalization := some fun s => stage_count weighted_results s
    lc_normalization := some fun c => category_count weighted_results c }

/-- `processors.get_results` (processors.py lines 193-314).  A
`MissingLCIAValueError` from the weighted-results fetch is wrapped into
`MultipleMissingLCIAValueErrors` (lines 237-240); a missing single score stays
a `MissingLCIAValueError` (lines 282-287); a failure of the final
`LCIAResult(...)` construction that is not an `exceptions.ValueError` — in
particular pydantic's missing-field `ValidationError` — is wrapped into
`UnknownError` by the catch-all branch (lines 309-311). -/
def get_results (db_w : List WRow) (db_ss : List SSRow) (item_id : String)
    (geo_id scheme_id : ℕ) (impact_categories life_cycle_stages : List ℕ) :
    Except PyErr LCIAResult :=
  let expected_combinations :=
    generate_expected_combinations impact_categories life_cycle_stages
  match fetch_results_from_weighted_results db_w item_id geo_id scheme_id
      expected_combinations with
  | .error .missingLCIA => .error .multipleMissing
  | .error e => .error e
  | .ok weighted_results =>
    match fetch_result_from_single_scores db_ss item_id geo_id scheme_id with
    | .error e => .error e
    | .ok single_score =>
      match LCIAResult.validate (get_results_args item_id geo_id single_score
          weighted_results impact_categories life_cycle_stages) with
      | .ok lcia_result => .ok lcia_result
      | .error _ => .error .unknown

/-- SQL `MAX` over a list of values; `0` on the empty list, which mirrors the
`None -> 0.0` defaulting of `bulk_fetch_min_max_values` (the non-optimized
fetcher checks the result set for emptiness before using it). -/
def listMax : List ℝ → ℝ
  | [] => 0
  | x :: xs => xs.foldl max x

/-- SQL `MIN` over a list of values; `0` on the empty list. -/
def listMin : List ℝ → ℝ
  | [] => 0
  | x :: xs => xs.foldl min x

/-- The single-score aggregation query of `crud.get_min_max_values`
(crud.py lines 55-64): all single scores of the scheme — no join against
`MetaData`, no `proxy_flag` condition. -/
def single_scores_for_scheme (db_ss : List SSRow) (scheme_id : ℕ) : List ℝ :=
  (db_ss.filter fun r => r.scheme_id == scheme_id).map SSRow.single_score

/-- The per-impact-category aggregation query of `crud.get_min_max_values`
(crud.py lines 79-89): all weighted values of the scheme and category — again
with no proxy filter. -/
def weighted_for_ic (db_w : List WRow) (scheme_id ic_id : ℕ) : List ℝ :=
  (db_w.filter fun r => r.ic_id == ic_id && r.scheme_id == scheme_id).map
    WRow.weighted_value

/-- The per-stage aggregation query of `crud.get_min_max_values`
(crud.py lines 100-110), no proxy filter. -/
def weighted_for_stage (db_w : List WRow) (scheme_id lc_stage_id : ℕ) : List ℝ :=
  (db_w.filter fun r => r.lc_stage_id == lc_stage_id && r.scheme_id == scheme_id).map
    WRow.weighted_value

/-- `crud.get_min_max_values` (crud.py lines 27-135).  An empty aggregate
raises `MinMaxValueNotFoundError`; a negative aggregate fails the `LCIAValue`
validator, re-raised as `ValueError` (a constructed aggregate is negative
exactly when the corresponding minimum is); a `min ≥ max` pair raises out of
the `MinMaxValues` model validators and lands in the catch-all branch as
`UnknownError`. -/
def get_min_max_values (db_ss : List SSRow) (db_w : List WRow) (scheme_id : ℕ)
    (impact_category_ids lc_stage_ids : List ℕ) : Except PyErr MinMaxValues :=
  if (single_scores_for_scheme db_ss scheme_id).isEmpty then .error .minMaxNotFound
  else if impact_category_ids.any fun ic =>
      (weighted_for_ic db_w scheme_id ic).isEmpty then .error .minMaxNotFound
  else if lc_stage_ids.any fun lc =>
      (weighted_for_stage db_w scheme_id lc).isEmpty then .error .minMaxNotFound
  else if listMin (single_scores_for_scheme db_ss scheme_id) < 0 ∨
      (∃ ic ∈ impact_category_ids, listMin (weighted_for_ic db_w scheme_id ic) < 0) ∨
      (∃ lc ∈ lc_stage_ids, listMin (weighted_for_stage db_w scheme_id lc) < 0) then
    .error .valueError
  else
    match MinMaxValues.validate impact_category_ids lc_stage_ids
      { scheme_id := scheme_id
        single_score_max := listMax (single_scores_for_scheme db_ss scheme_id)
        single_score_min := listMin (single_scores_for_scheme db_ss scheme_id)
        ic_mins := fun ic => listMin (weighted_for_ic db_w scheme_id ic)
        ic_maxs := fun ic => listMax (weighted_for_ic db_w scheme_id ic)
        lc_mins := fun lc => listMin (weighted_for_stage db_w scheme_id lc)
        lc_maxs := fun lc => listMax (weighted_for_stage db_w scheme_id lc) } with
    | .ok m => .ok m
    | .error _ => .error .unknown

/-- The join condition of `bulk_fetch_min_max_values`
(crud_optimizations.py lines 302-308, 320-326, 351-357): a row survives the
join with `MetaData` exactly when some metadata row has the same `item_id` and
`proxy_flag == False`. -/
def has_nonproxy_meta (db_meta : List MetaRow) (item_id : String) : Bool :=
  db_meta.any fun m => m.item_id == item_id && !m.proxy_flag

/-- The proxy-filtered per-category aggregation query of
`bulk_fetch_min_max_values` (crud_optimizations.py lines 298-313). -/
def nonproxy_weighted_for_ic (db_w : List WRow) (db_meta : List MetaRow)
    (scheme_id ic_id : ℕ) : List ℝ :=
  (db_w.filter fun r => r.scheme_id == scheme_id &&
    has_nonproxy_meta db_meta r.item_id && r.ic_id == ic_id).map WRow.weighted_value

/-- The proxy-filtered per-stage aggregation query of
`bulk_fetch_min_max_values` (crud_optimizations.py lines 316-331). -/
def nonproxy_weighted_for_stage (db_w : List WRow) (db_meta : List MetaRow)
    (scheme_id lc_stage_id : ℕ) : List ℝ :=
  (db_w.filter fun r => r.scheme_id == scheme_id &&
    has_nonproxy_meta db_meta r.item_id && r.lc_stage_id == lc_stage_id).map
    WRow.weighted_value

/-- The proxy-filtered single-score aggregation query of
`bulk_fetch_min_max_values` (crud_optimizations.py lines 348-359). -/
def nonproxy_single_scores (db_ss : List SSRow) (db_meta : List MetaRow)
    (scheme_id : ℕ) : List ℝ :=
  (db_ss.filter fun r => r.scheme_id == scheme_id &&
    has_nonproxy_meta db_meta r.item_id).map SSRow.single_score

/-- `crud_optimizations.bulk_fetch_min_max_values` (crud_optimizations.py
lines 268-376): same aggregation as `get_min_max_values` but restricted, via
the `MetaData` join, to rows of non-proxy items.  Categories and stages with
no surviving rows are simply absent from the grouped result (modelled by the
`0` junk value of the empty aggregate, and excluded from the validator key
lists); missing single-score aggregates default to `0.0` (which `listMax` and
`listMin` return on the empty list).  Any validator failure — a negative
value rejected by `LCIAValue` or a `min ≥ max` pair — lands in the catch-all
branch as `UnknownError`. -/
def bulk_fetch_min_max_values (db_ss : List SSRow) (db_w : List WRow)
    (db_meta : List MetaRow) (scheme_id : ℕ)
    (impact_category_ids lc_stage_ids : List ℕ) : Except PyErr MinMaxValues :=
  if (∃ ic ∈ impact_category_ids.filter
        (fun ic => !(nonproxy_weighted_for_ic db_w db_meta scheme_id ic).isEmpty),
        listMin (nonproxy_weighted_for_ic db_w db_meta scheme_id ic) < 0) ∨
      (∃ lc ∈ lc_stage_ids.filter
        (fun lc => !(nonproxy_weighted_for_stage db_w db_meta scheme_id lc).isEmpty),
        listMin (nonproxy_weighted_for_stage db_w db_meta scheme_id lc) < 0) ∨
      listMin (nonproxy_single_scores db_ss db_meta scheme_id) < 0 then
    .error .unknown
  else
    match MinMaxValues.validate
      (impact_category_ids.filter
        fun ic => !(nonproxy_weighted_for_ic db_w db_meta scheme_id ic).isEmpty)
      (lc_stage_ids.filter
        fun lc => !(nonproxy_weighted_for_stage db_w db_meta scheme_id lc).isEmpty)
      { scheme_id := scheme_id
        single_score_max := listMax (nonproxy_single_scores db_ss db_meta scheme_id)
        single_score_min := listMin (nonproxy_single_scores db_ss db_meta scheme_id)
        ic_mins := fun ic => listMin (nonproxy_weighted_for_ic db_w db_meta scheme_id ic)
        ic_maxs := fun ic => listMax (nonproxy_weighted_for_ic db_w db_meta scheme_id ic)
        lc_mins := fun lc =>
          listMin (nonproxy_weighted_for_stage db_w db_meta scheme_id lc)
        lc_maxs := fun lc =>
          listMax (nonproxy_weighted_for_stage db_w db_meta scheme_id lc) } with
    | .ok m => .ok m
    | .error _ => .error .unknown

/-! ## Theorems -/

@[simp] theorem exceptBind_ok {ε α β : Type _} (a : α) (f : α → Except ε β) :
    (Except.ok a >>= f) = f a := rfl

@[simp] theorem exceptBind_error {ε α β : Type _} (e : ε) (f : α → Except ε β) :
    ((Except.error e : Except ε α) >>= f) = .error e := rfl

theorem graded_result_requires_proxy_flag (a : GradedLCIAResultArgs)
    (h : a.proxy_flag = none) :
    GradedLCIAResult.validate a = .error .validationError := by
  unfold GradedLCIAResult.validate
  rw [h]

theorem lcia_result_requires_proxy_flag (a : LCIAResultArgs) (h : a.proxy_flag = none) :
    LCIAResult.validate a = .error .validationError := by
  unfold LCIAResult.validate
  rw [h]
  cases a.item_id <;> cases a.geo_id <;> rfl

/-- C2: none of the three operations can return a result for any input:
`apply_grading_scheme`, `calculate_recipe` and `get_results` each construct
their result object without supplying the required `proxy_flag` field, so the
construction raises a validation error instead of returning. -/
theorem proxy_flag_never_supplied :
    (∀ (lcia_result : LCIAResult) (min_max_values : MinMaxValues),
      isOkE (apply_grading_scheme lcia_result min_max_values) = false) ∧
    (∀ graded_lcia_results : List GradedLCIAResult,
      isOkE (calculate_recipe graded_lcia_results) = false) ∧
    (∀ (db_w : List WRow) (db_ss : List SSRow) (item_id : String)
      (geo_id scheme_id : ℕ) (impact_categories life_cycle_stages : List ℕ),
      isOkE (get_results db_w db_ss item_id geo_id scheme_id
        impact_categories life_cycle_stages) = false) ∧
    (∀ (lcia_result : LCIAResult) (gss : GradedLCIAValue)
      (gst gic : List (ℕ × GradedLCIAValue)),
      (apply_grading_result_args lcia_result gss gst gic).proxy_flag = none) ∧
    (∀ (gss : GradedLCIAValue) (gst gic : List (ℕ × GradedLCIAValue)),
      (calculate_recipe_result_args gss gst gic).proxy_flag = none) ∧
    (∀ (item_id : String) (geo_id : ℕ) (single_score : ℝ)
      (weighted_results : List ((ℕ × ℕ) × ℝ)) (ics stages : List ℕ),
      (get_results_args item_id geo_id single_score weighted_results
        ics stages).proxy_flag = none) := by
  refine ⟨?_, ?_, ?_, fun _ _ _ _ => rfl, fun _ _ _ => rfl, fun _ _ _ _ _ _ => rfl⟩
  · intro lcia_result min_max_values
    unfold apply_grading_scheme
    cases h : grade_lcia_components lcia_result min_max_values with
    | error e => rfl
    | ok triple =>
      obtain ⟨gss, gst, gic⟩ := triple
      rfl
  · intro graded_lcia_results
    unfold calculate_recipe
    cases h : calculate_recipe_values graded_lcia_results with
    | error e => rfl
    | ok triple =>
      obtain ⟨gss, gst, gic⟩ := triple
      rfl
  · intro db_w db_ss item_id geo_id scheme_id impact_categories life_cycle_stages
    unfold get_results
    cases h1 : fetch_results_from_weighted_results db_w item_id geo_id scheme_id
        (generate_expected_combinations impact_categories life_cycle_stages) with
    | error e => cases e <;> simp [h1]
    | ok weighted_results =>
      simp only [h1]
      cases h2 : fetch_result_from_single_scores db_ss item_id geo_id scheme_id with
      | error e => simp [h2]
      | ok single_score =>
        simp only [h2]
        rw [lcia_result_requires_proxy_flag _ rfl]
        rfl

/-- C10: applied to the empty list, the recipe combination does not return:
`get_combined_grade` of zero values divides by `sqrt 0 = 0`, a
`ZeroDivisionError`, so `calculate_recipe []` raises instead of returning. -/
theorem calculate_recipe_empty_zero_division :
    Real.sqrt (([] : List ℝ).length : ℝ) = 0 ∧
    get_combined_grade [] = .error .zeroDivision ∧
    calculate_recipe ([] : List GradedLCIAResult) = .error .zeroDivision := by
  refine ⟨by simp, rfl, rfl⟩

/-- A proxy item whose single score `99` lies above the non-proxy-derived
maximum `9` (with minimum `0`); its stage and category maps are empty. -/
def proxyOutOfBoundsResult : LCIAResult :=
  ⟨"1001", 1, true, 99, [], [], fun _ => 0, fun _ => 0⟩

/-- Scaling bounds with `single_score_min = 0 < single_score_max = 9` and
`min = 0 < max = 1` for every category and stage. -/
def narrowBounds : MinMaxValues :=
  ⟨1, 9, 0, fun _ => 0, fun _ => 1, fun _ => 0, fun _ => 1⟩

theorem log_scale_above_max : log_scale 99 0 9 1 = 2 := by
  unfold log_scale
  norm_num [Real.log_one, Real.sqrt_one]
  rw [show (100 : ℝ) = 10 ^ 2 by norm_num, Real.log_pow]
  have h10 : Real.log 10 ≠ 0 := ne_of_gt (Real.log_pos (by norm_num))
  field_simp

/-- C1: there is no clamping of raw values into `[min, max]` before log
scaling.  For a raw single score of `99` against bounds `[0, 9]` the grading
step computes the scaled value `2 ∉ [0, 1]` and raises a `ValueError` out of
the failed `GradedLCIAValue` range validation, instead of treating the value
as `max` and returning a scaled value in `[0, 1]`. -/
theorem no_clamping_before_scaling :
    log_scale 99 0 9 1 = 2 ∧
    tryGraded 99 (log_scale 99 0 9 1) = .error .valueError ∧
    grade_lcia_components proxyOutOfBoundsResult narrowBounds = .error .valueError ∧
    apply_grading_scheme proxyOutOfBoundsResult narrowBounds = .error .valueError := by
  have htry : tryGraded 99 (log_scale 99 0 9 1) = .error .valueError := by
    unfold tryGraded GradedLCIAValue.validate
    rw [log_scale_above_max, if_neg (by norm_num)]
  have hcomp : grade_lcia_components proxyOutOfBoundsResult narrowBounds =
      .error .valueError := by
    unfold grade_lcia_components
    have hss : proxyOutOfBoundsResult.single_score = (99 : ℝ) := rfl
    have hmin : narrowBounds.single_score_min = (0 : ℝ) := rfl
    have hmax : narrowBounds.single_score_max = (9 : ℝ) := rfl
    rw [hss, hmin, hmax]
    simp only [htry, exceptBind_error]
  refine ⟨log_scale_above_max, htry, hcomp, ?_⟩
  unfold apply_grading_scheme
  rw [hcomp, exceptBind_error]

/-! ### Evaluation helpers for concrete recipe combinations -/

theorem assign_grade_one : GradedLCIAValue.assign_grade 1 = "E" := by
  unfold GradedLCIAValue.assign_grade
  rw [if_pos (by norm_num)]

theorem assign_grade_zero : GradedLCIAValue.assign_grade 0 = "A" := by
  unfold GradedLCIAValue.assign_grade
  rw [if_neg (by norm_num), if_neg (by norm_num), if_neg (by norm_num),
    if_neg (by norm_num)]

theorem assign_grade_half : GradedLCIAValue.assign_grade (1 / 2) = "D" := by
  unfold GradedLCIAValue.assign_grade
  rw [if_neg (by norm_num), if_pos (by norm_num)]

theorem sqrt_two_ne_zero : Real.sqrt 2 ≠ 0 :=
  Real.sqrt_ne_zero'.mpr (by norm_num)

theorem get_combined_grade_pair_ones : get_combined_grade [(1 : ℝ), 1] = .ok 1 := by
  unfold get_combined_grade
  rw [if_neg (by simp)]
  congr 1
  simp only [List.map_cons, List.map_nil, List.sum_cons, List.sum_nil, List.length_cons,
    List.length_nil]
  norm_num [div_self sqrt_two_ne_zero]

theorem get_combined_grade_pair_zeros : get_combined_grade [(0 : ℝ), 0] = .ok 0 := by
  unfold get_combined_grade
  rw [if_neg (by simp)]
  congr 1
  simp only [List.map_cons, List.map_nil, List.sum_cons, List.sum_nil, List.length_cons,
    List.length_nil]
  norm_num

theorem get_combined_grade_single_half : get_combined_grade [(1 / 2 : ℝ)] = .ok (1 / 2) := by
  unfold get_combined_grade
  rw [if_neg (by simp)]
  congr 1
  simp only [List.map_cons, List.map_nil, List.sum_cons, List.sum_nil, List.length_cons,
    List.length_nil]
  rw [add_zero, Real.sqrt_sq (by norm_num)]
  norm_num

theorem get_combined_grade_single_zero : get_combined_grade [(0 : ℝ)] = .ok 0 := by
  unfold get_combined_grade
  rw [if_neg (by simp)]
  congr 1
  simp only [List.map_cons, List.map_nil, List.sum_cons, List.sum_nil, List.length_cons,
    List.length_nil]
  norm_num

/-- A graded item result used as concrete input to the recipe fold. -/
def g9 : GradedLCIAResult :=
  ⟨some "2002", some 2, true, ⟨1, 0, some "A"⟩, [], []⟩

/-- C9: the final construction of the recipe-level result passes no `item_id`
and no `geo_id` (they default to `None`); the recipe-level `contains_proxy`
flag written by the output serializer is `any(...)`, the logical OR of the
per-item proxy flags; but the construction also omits the required
`proxy_flag`, so `calculate_recipe` raises a validation error and the
recipe-level result itself is never produced. -/
theorem recipe_level_ids_and_contains_proxy :
    (∀ (gss : GradedLCIAValue) (gst gic : List (ℕ × GradedLCIAValue)),
      (calculate_recipe_result_args gss gst gic).item_id = none ∧
      (calculate_recipe_result_args gss gst gic).geo_id = none ∧
      (calculate_recipe_result_args gss gst gic).proxy_flag = none) ∧
    (∀ proxy_flags : List Bool,
      output_contains_proxy proxy_flags =
        proxy_flags.foldr (fun a b => a || b) false) ∧
    calculate_recipe [g9] = .error .validationError := by
  refine ⟨fun _ _ _ => ⟨rfl, rfl, rfl⟩, ?_, ?_⟩
  · intro proxy_flags
    induction proxy_flags with
    | nil => rfl
    | cons b bs ih =>
      simp only [output_contains_proxy, List.any_cons, List.foldr_cons] at *
      rw [ih]
  · have hm1 : List.map (fun r => r.single_score.scaled_value) [g9] = [(0 : ℝ)] := by
      simp [g9]
    have hm2 : List.map (fun r => r.single_score.lcia_value) [g9] = [(1 : ℝ)] := by
      simp [g9]
    have hval : GradedLCIAValue.validate 1 0 (some (GradedLCIAValue.assign_grade 0)) =
        .ok ⟨1, 0, some (GradedLCIAValue.assign_grade 0)⟩ := by
      unfold GradedLCIAValue.validate
      rw [if_pos (by norm_num)]
    have hvalues : calculate_recipe_values [g9] =
        .ok (⟨1, 0, some (GradedLCIAValue.assign_grade 0)⟩, [], []) := by
      unfold calculate_recipe_values
      rw [hm1, get_combined_grade_single_zero, exceptBind_ok]
      rw [show icKeys [g9] = [] from rfl, show stageKeys [g9] = [] from rfl]
      simp only [mapExcept, exceptBind_ok, hm2]
      rw [show ([(1 : ℝ)]).sum = 1 by simp, hval]
      rfl
    unfold calculate_recipe
    rw [hvalues, exceptBind_ok]
    rfl

/-- First concrete graded item result for the recipe combination: raw single
score 2 scaled 1; stage 1 raw 3 scaled 0; impact category 2 raw 4 scaled 1. -/
def cgA : GradedLCIAResult :=
  ⟨some "1001", some 1, false, ⟨2, 1, some "E"⟩,
    [(1, ⟨3, 0, some "A"⟩)], [(2, ⟨4, 1, some "E"⟩)]⟩

/-- Second concrete graded item result: raw single score 5 scaled 1; stage 1
raw 7 scaled 0; impact category 2 raw 9 scaled 1 and impact category 4 raw 11
scaled 1/2 (a dimension only this item supplies). -/
def cgB : GradedLCIAResult :=
  ⟨some "1002", some 1, true, ⟨5, 1, some "E"⟩,
    [(1, ⟨7, 0, some "A"⟩)], [(2, ⟨9, 1, some "E"⟩), (4, ⟨11, 1 / 2, some "D"⟩)]⟩

/-- C3: on the two-item input `[cgA, cgB]` the aggregation of
`calculate_recipe` computes, for each dimension, a combined raw value that is
the plain sum of the contributing raw values, and a combined scaled value
`sqrt(sum of squared scaled values) / sqrt(n)` where `n` is the number of
contributing items for that dimension (2 for the single score, stage 1 and
category 2; 1 for category 4), graded with the fixed thresholds — but the
final `GradedLCIAResult(...)` construction omits `proxy_flag`, so
`calculate_recipe` itself raises a validation error instead of returning this
combined result. -/
theorem calculate_recipe_combination_at_failing_input :
    calculate_recipe_values [cgA, cgB] =
      .ok (⟨7, 1, some "E"⟩,
        [(1, ⟨10, 0, some "A"⟩)],
        [(2, ⟨13, 1, some "E"⟩), (4, ⟨11, 1 / 2, some "D"⟩)]) ∧
    (icContribs [cgA, cgB] 2).length = 2 ∧
    (icContribs [cgA, cgB] 4).length = 1 ∧
    (1 : ℝ) = Real.sqrt (1 ^ 2 + 1 ^ 2) / Real.sqrt 2 ∧
    (0 : ℝ) = Real.sqrt (0 ^ 2 + 0 ^ 2) / Real.sqrt 2 ∧
    (1 / 2 : ℝ) = Real.sqrt ((1 / 2) ^ 2) / Real.sqrt 1 ∧
    (13 : ℝ) = 4 + 9 ∧ (10 : ℝ) = 3 + 7 ∧ (7 : ℝ) = 2 + 5 ∧
    calculate_recipe [cgA, cgB] = .error .validationError := by
  have hgc2 : get_combined_grade [(1 : ℝ), 1] = .ok 1 := get_combined_grade_pair_ones
  have hic2 : combine_dimension (icContribs [cgA, cgB] 2) = .ok ⟨13, 1, some "E"⟩ := by
    rw [show icContribs [cgA, cgB] 2 =
      [⟨4, 1, some "E"⟩, ⟨9, 1, some "E"⟩] from rfl]
    unfold combine_dimension
    rw [show List.map GradedLCIAValue.scaled_value
        [(⟨4, 1, some "E"⟩ : GradedLCIAValue), ⟨9, 1, some "E"⟩] = [(1 : ℝ), 1] from rfl]
    rw [hgc2, exceptBind_ok]
    rw [show (List.map GradedLCIAValue.lcia_value
        [(⟨4, 1, some "E"⟩ : GradedLCIAValue), ⟨9, 1, some "E"⟩]).sum = (13 : ℝ) by
      simp; norm_num]
    unfold GradedLCIAValue.validate
    rw [if_pos (by norm_num), assign_grade_one]
  have hic4 : combine_dimension (icContribs [cgA, cgB] 4) =
      .ok ⟨11, 1 / 2, some "D"⟩ := by
    rw [show icContribs [cgA, cgB] 4 = [⟨11, 1 / 2, some "D"⟩] from rfl]
    unfold combine_dimension
    rw [show List.map GradedLCIAValue.scaled_value
        [(⟨11, 1 / 2, some "D"⟩ : GradedLCIAValue)] = [(1 / 2 : ℝ)] from rfl]
    rw [get_combined_grade_single_half, exceptBind_ok]
    rw [show (List.map GradedLCIAValue.lcia_value
        [(⟨11, 1 / 2, some "D"⟩ : GradedLCIAValue)]).sum = (11 : ℝ) by simp]
    unfold GradedLCIAValue.validate
    rw [if_pos (by norm_num), assign_grade_half]
  have hst1 : combine_dimension (stageContribs [cgA, cgB] 1) =
      .ok ⟨10, 0, some "A"⟩ := by
    rw [show stageContribs [cgA, cgB] 1 =
      [⟨3, 0, some "A"⟩, ⟨7, 0, some "A"⟩] from rfl]
    unfold combine_dimension
    rw [show List.map GradedLCIAValue.scaled_value
        [(⟨3, 0, some "A"⟩ : GradedLCIAValue), ⟨7, 0, some "A"⟩] = [(0 : ℝ), 0] from rfl]
    rw [get_combined_grade_pair_zeros, exceptBind_ok]
    rw [show (List.map GradedLCIAValue.lcia_value
        [(⟨3, 0, some "A"⟩ : GradedLCIAValue), ⟨7, 0, some "A"⟩]).sum = (10 : ℝ) by
      simp; norm_num]
    unfold GradedLCIAValue.validate
    rw [if_pos (by norm_num), assign_grade_zero]
  have hvalues : calculate_recipe_values [cgA, cgB] =
      .ok (⟨7, 1, some "E"⟩,
        [(1, ⟨10, 0, some "A"⟩)],
        [(2, ⟨13, 1, some "E"⟩), (4, ⟨11, 1 / 2, some "D"⟩)]) := by
    unfold calculate_recipe_values
    rw [show List.map (fun r => r.single_score.scaled_value) [cgA, cgB] =
      [(1 : ℝ), 1] from rfl]
    rw [hgc2, exceptBind_ok]
    rw [show icKeys [cgA, cgB] = [2, 4] from rfl,
      show stageKeys [cgA, cgB] = [1] from rfl]
    simp only [mapExcept, hic2, hic4, hst1, exceptBind_ok]
    rw [show (List.map (fun r => r.single_score.lcia_value) [cgA, cgB]).sum = (7 : ℝ) by
      simp [cgA, cgB]; norm_num]
    unfold GradedLCIAValue.validate
    rw [if_pos (by norm_num), assign_grade_one]
    rfl
  refine ⟨hvalues, rfl, rfl, ?_, ?_, ?_, by norm_num, by norm_num, by norm_num, ?_⟩
  · rw [show (1 : ℝ) ^ 2 + 1 ^ 2 = 2 by norm_num, div_self sqrt_two_ne_zero]
  · rw [show (0 : ℝ) ^ 2 + 0 ^ 2 = 0 by norm_num, Real.sqrt_zero, zero_div]
  · rw [Real.sqrt_sq (by norm_num), Real.sqrt_one, div_one]
  · unfold calculate_recipe
    rw [hvalues, exceptBind_ok]
    rfl

/-! ### The general combination formula of the Recipe Aggregator -/

theorem get_combined_grade_formula (l : List ℝ) (hne : l ≠ []) :
    get_combined_grade l =
      .ok (Real.sqrt ((l.map fun v => v ^ 2).sum) / Real.sqrt (l.length : ℝ)) := by
  unfold get_combined_grade
  rw [if_neg (by simpa using hne)]

theorem combined_scaled_in_unit_interval (l : List ℝ) (hne : l ≠ [])
    (hrange : ∀ x ∈ l, 0 ≤ x ∧ x ≤ 1) :
    0 ≤ Real.sqrt ((l.map fun v => v ^ 2).sum) / Real.sqrt (l.length : ℝ) ∧
    Real.sqrt ((l.map fun v => v ^ 2).sum) / Real.sqrt (l.length : ℝ) ≤ 1 := by
  have hlen : 0 < (l.length : ℝ) := by
    have := List.length_pos.mpr hne
    exact_mod_cast this
  have hsqrtlen : 0 < Real.sqrt (l.length : ℝ) := Real.sqrt_pos.mpr hlen
  constructor
  · exact div_nonneg (Real.sqrt_nonneg _) (Real.sqrt_nonneg _)
  · rw [div_le_one hsqrtlen]
    have hsum : ((l.map fun v => v ^ 2).sum) ≤ (l.length : ℝ) := by
      have hbound : ∀ x ∈ l.map fun v => v ^ 2, x ≤ (1 : ℝ) := by
        intro x hx
        rcases List.mem_map.mp hx with ⟨v, hv, rfl⟩
        obtain ⟨h0, h1⟩ := hrange v hv
        nlinarith
      have := List.sum_le_card_nsmul _ _ hbound
      rwa [List.length_map, nsmul_eq_mul, mul_one] at this
    calc Real.sqrt ((l.map fun v => v ^ 2).sum)
        ≤ Real.sqrt (l.length : ℝ) := Real.sqrt_le_sqrt hsum

theorem combine_dimension_formula (contribs : List GradedLCIAValue)
    (hne : contribs ≠ [])
    (hrange : ∀ v ∈ contribs, 0 ≤ v.scaled_value ∧ v.scaled_value ≤ 1) :
    combine_dimension contribs =
      .ok ⟨(contribs.map GradedLCIAValue.lcia_value).sum,
        Real.sqrt ((contribs.map fun v => v.scaled_value ^ 2).sum) /
          Real.sqrt (contribs.length : ℝ),
        some (GradedLCIAValue.assign_grade
          (Real.sqrt ((contribs.map fun v => v.scaled_value ^ 2).sum) /
            Real.sqrt (contribs.length : ℝ)))⟩ := by
  have hmapne : contribs.map GradedLCIAValue.scaled_value ≠ [] := by
    simpa using hne
  have hsq : ((contribs.map GradedLCIAValue.scaled_value).map fun v => v ^ 2) =
      contribs.map fun v => v.scaled_value ^ 2 := by
    rw [List.map_map]
    rfl
  have hlen : ((contribs.map GradedLCIAValue.scaled_value).length : ℝ) =
      (contribs.length : ℝ) := by
    rw [List.length_map]
  have hunit := combined_scaled_in_unit_interval
    (contribs.map GradedLCIAValue.scaled_value) hmapne ?range
  case range =>
    intro x hx
    rcases List.mem_map.mp hx with ⟨v, hv, rfl⟩
    exact hrange v hv
  unfold combine_dimension
  rw [get_combined_grade_formula _ hmapne, exceptBind_ok]
  rw [hsq, hlen] at hunit ⊢
  unfold GradedLCIAValue.validate
  rw [if_pos hunit]

theorem mem_icContribs_of_mem (results : List GradedLCIAResult)
    (r : GradedLCIAResult) (p : ℕ × GradedLCIAValue) (hr : r ∈ results)
    (hp : p ∈ r.impact_category_values) : p.2 ∈ icContribs results p.1 := by
  unfold icContribs
  rw [List.mem_flatMap]
  refine ⟨r, hr, List.mem_map.mpr ⟨p, List.mem_filter.mpr ⟨hp, ?_⟩, rfl⟩⟩
  simp

theorem icContribs_ne_nil (results : List GradedLCIAResult) (c : ℕ)
    (hc : c ∈ icKeys results) : icContribs results c ≠ [] := by
  unfold icKeys at hc
  rw [List.mem_dedup, List.mem_flatMap] at hc
  obtain ⟨r, hr, hcr⟩ := hc
  rcases List.mem_map.mp hcr with ⟨p, hp, hpc⟩
  have := mem_icContribs_of_mem results r p hr hp
  rw [hpc] at this
  exact List.ne_nil_of_mem this

theorem icContribs_range (results : List GradedLCIAResult) (c : ℕ)
    (hrange : ∀ r ∈ results, ∀ p ∈ r.impact_category_values,
      0 ≤ p.2.scaled_value ∧ p.2.scaled_value ≤ 1) :
    ∀ v ∈ icContribs results c, 0 ≤ v.scaled_value ∧ v.scaled_value ≤ 1 := by
  intro v hv
  unfold icContribs at hv
  rw [List.mem_flatMap] at hv
  obtain ⟨r, hr, hvr⟩ := hv
  rcases List.mem_map.mp hvr with ⟨p, hp, hpv⟩
  exact hpv ▸ hrange r hr p (List.mem_filter.mp hp).1

theorem mem_stageContribs_of_mem (results : List GradedLCIAResult)
    (r : GradedLCIAResult) (p : ℕ × GradedLCIAValue) (hr : r ∈ results)
    (hp : p ∈ r.stage_values) : p.2 ∈ stageContribs results p.1 := by
  unfold stageContribs
  rw [List.mem_flatMap]
  refine ⟨r, hr, List.mem_map.mpr ⟨p, List.mem_filter.mpr ⟨hp, ?_⟩, rfl⟩⟩
  simp

theorem stageContribs_ne_nil (results : List GradedLCIAResult) (s : ℕ)
    (hs : s ∈ stageKeys results) : stageContribs results s ≠ [] := by
  unfold stageKeys at hs
  rw [List.mem_dedup, List.mem_flatMap] at hs
  obtain ⟨r, hr, hsr⟩ := hs
  rcases List.mem_map.mp hsr with ⟨p, hp, hps⟩
  have := mem_stageContribs_of_mem results r p hr hp
  rw [hps] at this
  exact List.ne_nil_of_mem this

theorem stageContribs_range (results : List GradedLCIAResult) (s : ℕ)
    (hrange : ∀ r ∈ results, ∀ p ∈ r.stage_values,
      0 ≤ p.2.scaled_value ∧ p.2.scaled_value ≤ 1) :
    ∀ v ∈ stageContribs results s, 0 ≤ v.scaled_value ∧ v.scaled_value ≤ 1 := by
  intro v hv
  unfold stageContribs at hv
  rw [List.mem_flatMap] at hv
  obtain ⟨r, hr, hvr⟩ := hv
  rcases List.mem_map.mp hvr with ⟨p, hp, hpv⟩
  exact hpv ▸ hrange r hr p (List.mem_filter.mp hp).1

/-- The aggregation of `calculate_recipe` on any non-empty input whose scaled
values all lie in `[0, 1]`: for every dimension present in at least one item,
the combined raw value is the plain sum of the contributions, the combined
scaled value is `sqrt(sum of squared scaled values) / sqrt(n)` with `n` the
number of contributions for that dimension, and the combined grade is the
grade of the combined scaled value. -/
theorem calculate_recipe_values_formula (results : List GradedLCIAResult)
    (hne : results ≠ [])
    (hrs : ∀ r ∈ results, 0 ≤ r.single_score.scaled_value ∧
      r.single_score.scaled_value ≤ 1)
    (hrst : ∀ r ∈ results, ∀ p ∈ r.stage_values,
      0 ≤ p.2.scaled_value ∧ p.2.scaled_value ≤ 1)
    (hric : ∀ r ∈ results, ∀ p ∈ r.impact_category_values,
      0 ≤ p.2.scaled_value ∧ p.2.scaled_value ≤ 1) :
    calculate_recipe_values results =
      .ok (⟨(results.map fun r => r.single_score.lcia_value).sum,
          Real.sqrt ((results.map fun r => r.single_score.scaled_value ^ 2).sum) /
            Real.sqrt (results.length : ℝ),
          some (GradedLCIAValue.assign_grade
            (Real.sqrt ((results.map fun r => r.single_score.scaled_value ^ 2).sum) /
              Real.sqrt (results.length : ℝ)))⟩,
        (stageKeys results).map fun s => (s,
          ⟨((stageContribs results s).map GradedLCIAValue.lcia_value).sum,
            Real.sqrt (((stageContribs results s).map fun v => v.scaled_value ^ 2).sum) /
              Real.sqrt ((stageContribs results s).length : ℝ),
            some (GradedLCIAValue.assign_grade
              (Real.sqrt
                (((stageContribs results s).map fun v => v.scaled_value ^ 2).sum) /
                Real.sqrt ((stageContribs results s).length : ℝ)))⟩),
        (icKeys results).map fun c => (c,
          ⟨((icContribs results c).map GradedLCIAValue.lcia_value).sum,
            Real.sqrt (((icContribs results c).map fun v => v.scaled_value ^ 2).sum) /
              Real.sqrt ((icContribs results c).length : ℝ),
            some (GradedLCIAValue.assign_grade
              (Real.sqrt
                (((icContribs results c).map fun v => v.scaled_value ^ 2).sum) /
                Real.sqrt ((icContribs results c).length : ℝ)))⟩)) := by
  have hmapne : (results.map fun r => r.single_score.scaled_value) ≠ [] := by
    simpa using hne
  have hsq : ((results.map fun r => r.single_score.scaled_value).map fun v => v ^ 2) =
      results.map fun r => r.single_score.scaled_value ^ 2 := by
    rw [List.map_map]
    rfl
  have hlen : ((results.map fun r => r.single_score.scaled_value).length : ℝ) =
      (results.length : ℝ) := by rw [List.length_map]
  have hunit := combined_scaled_in_unit_interval
    (results.map fun r => r.single_score.scaled_value) hmapne ?srange
  case srange =>
    intro x hx
    rcases List.mem_map.mp hx with ⟨r, hr, rfl⟩
    exact hrs r hr
  unfold calculate_recipe_values
  rw [get_combined_grade_formula _ hmapne, exceptBind_ok]
  rw [mapExcept_ok _ (fun c => (c,
      ⟨((icContribs results c).map GradedLCIAValue.lcia_value).sum,
        Real.sqrt (((icContribs results c).map fun v => v.scaled_value ^ 2).sum) /
          Real.sqrt ((icContribs results c).length : ℝ),
        some (GradedLCIAValue.assign_grade
          (Real.sqrt (((icContribs results c).map fun v => v.scaled_value ^ 2).sum) /
            Real.sqrt ((icContribs results c).length : ℝ)))⟩)) _ ?icok, exceptBind_ok]
  case icok =>
    intro c hc
    rw [combine_dimension_formula (icContribs results c) (icContribs_ne_nil results c hc)
      (icContribs_range results c hric), exceptBind_ok]
    rfl
  rw [mapExcept_ok _ (fun s => (s,
      ⟨((stageContribs results s).map GradedLCIAValue.lcia_value).sum,
        Real.sqrt (((stageContribs results s).map fun v => v.scaled_value ^ 2).sum) /
          Real.sqrt ((stageContribs results s).length : ℝ),
        some (GradedLCIAValue.assign_grade
          (Real.sqrt (((stageContribs results s).map fun v => v.scaled_value ^ 2).sum) /
            Real.sqrt ((stageContribs results s).length : ℝ)))⟩)) _ ?stok, exceptBind_ok]
  case stok =>
    intro s hs
    rw [combine_dimension_formula (stageContribs results s)
      (stageContribs_ne_nil results s hs) (stageContribs_range results s hrst),
      exceptBind_ok]
    rfl
  rw [hsq, hlen] at hunit ⊢
  unfold GradedLCIAValue.validate
  rw [if_pos hunit]
  rfl

/-! ### Missing-pair handling of the item aggregation (C6) -/

/-- A `WeightedResults` table holding a single row: item 1001, geo 1,
scheme 1, category 1, stage 1, value 2 — and no row for stage 2. -/
def db6w : List WRow := [⟨"1001", 1, 1, 1, 1, 2⟩]

/-- A `SingleScores` table holding the single score 5 for the same item. -/
def db6ss : List SSRow := [⟨"1001", 1, 1, 5⟩]

/-- C6: with categories `[1]` and stages `[1, 2]` selected, the pair `(1, 2)`
is required, but the database supplies only `(1, 1)`.  The fetch returns the
partial data without any missing-value error (it errors only on a completely
empty result set); the aggregation computes `0` for stage 2 with contributor
count `0`; and `get_results` ends in an `UnknownError` (from the unrelated
`proxy_flag` omission), not in a missing-value error. -/
theorem missing_pair_silently_zero :
    (1, 2) ∈ generate_expected_combinations [1] [1, 2] ∧
    fetch_results_from_weighted_results db6w "1001" 1 1
      (generate_expected_combinations [1] [1, 2]) = .ok [((1, 1), 2)] ∧
    List.lookup (1, 2) [((1, 1), (2 : ℝ))] = none ∧
    stage_total [((1, 1), (2 : ℝ))] 2 = 0 ∧
    stage_count [((1, 1), (2 : ℝ))] 2 = 0 ∧
    get_results db6w db6ss "1001" 1 1 [1] [1, 2] = .error .unknown := by
  have hq : weighted_query db6w "1001" 1 1
      ((generate_expected_combinations [1] [1, 2]).image Prod.fst)
      ((generate_expected_combinations [1] [1, 2]).image Prod.snd) = db6w := rfl
  have hfetch : fetch_results_from_weighted_results db6w "1001" 1 1
      (generate_expected_combinations [1] [1, 2]) = .ok [((1, 1), 2)] := by
    unfold fetch_results_from_weighted_results
    rw [hq]
    rw [if_neg (by decide)]
    rw [if_pos ?valid]
    case valid =>
      intro r hr
      simp only [db6w, List.mem_singleton] at hr
      subst hr
      refine ⟨⟨by norm_num, by norm_num⟩, ⟨by norm_num, by norm_num⟩, by norm_num⟩
    rfl
  have hss : fetch_result_from_single_scores db6ss "1001" 1 1 = .ok 5 := by
    unfold fetch_result_from_single_scores
    rw [show (single_score_query db6ss "1001" 1 1).head? =
      some ⟨"1001", 1, 1, 5⟩ from rfl]
    show (if (0 : ℝ) ≤ 5 then Except.ok (5 : ℝ) else Except.error PyErr.valueError) =
      Except.ok 5
    rw [if_pos (show (0 : ℝ) ≤ 5 by norm_num)]
  refine ⟨by decide, hfetch, rfl, rfl, rfl, ?_⟩
  unfold get_results
  simp only [hfetch]
  simp only [hss]
  rw [lcia_result_requires_proxy_flag _ rfl]

/-! ### Proxy rows and the scaling bounds (C7) -/

/-- `SingleScores` rows of scheme 1: non-proxy items 1001 and 1002 score 4
and 5; proxy item 1003 scores 10, above the non-proxy maximum. -/
def db7ss : List SSRow := [⟨"1001", 1, 1, 4⟩, ⟨"1002", 1, 1, 5⟩, ⟨"1003", 1, 1, 10⟩]

/-- `WeightedResults` rows of scheme 1, category 1, stage 1: values 1 and 3
for the non-proxy items, 8 for the proxy item. -/
def db7w : List WRow :=
  [⟨"1001", 1, 1, 1, 1, 1⟩, ⟨"1002", 1, 1, 1, 1, 3⟩, ⟨"1003", 1, 1, 1, 1, 8⟩]

/-- `MetaData` rows: 1001 and 1002 are non-proxy, 1003 is proxy-flagged. -/
def db7meta : List MetaRow := [⟨"1001", 1, false⟩, ⟨"1002", 1, false⟩, ⟨"1003", 1, true⟩]

/-- C7: the plain bounds computation `get_min_max_values` has no proxy filter,
so the proxy item 1003 drives the single-score maximum to 10 and the
category-1 and stage-1 maxima to 8, while the optimized
`bulk_fetch_min_max_values`, which joins `MetaData` with
`proxy_flag == False`, returns the non-proxy bounds 5 and 3 on the same
database. -/
theorem min_max_includes_proxy_rows :
    ((⟨"1003", 1, true⟩ : MetaRow) ∈ db7meta ∧
      has_nonproxy_meta db7meta "1003" = false ∧
      (⟨"1003", 1, 1, 1, 1, 8⟩ : WRow) ∈ db7w) ∧
    (get_min_max_values db7ss db7w 1 [1] [1]).map
      (fun m => (m.single_score_min, m.single_score_max, m.ic_maxs 1, m.lc_maxs 1)) =
      .ok (4, 10, 8, 8) ∧
    (bulk_fetch_min_max_values db7ss db7w db7meta 1 [1] [1]).map
      (fun m => (m.single_score_min, m.single_score_max, m.ic_maxs 1, m.lc_maxs 1)) =
      .ok (4, 5, 3, 3) := by
  have h1 : single_scores_for_scheme db7ss 1 = [(4 : ℝ), 5, 10] := rfl
  have h2 : weighted_for_ic db7w 1 1 = [(1 : ℝ), 3, 8] := rfl
  have h3 : weighted_for_stage db7w 1 1 = [(1 : ℝ), 3, 8] := rfl
  have h4 : nonproxy_single_scores db7ss db7meta 1 = [(4 : ℝ), 5] := rfl
  have h5 : nonproxy_weighted_for_ic db7w db7meta 1 1 = [(1 : ℝ), 3] := rfl
  have h6 : nonproxy_weighted_for_stage db7w db7meta 1 1 = [(1 : ℝ), 3] := rfl
  have hmax10 : listMax [(4 : ℝ), 5, 10] = 10 := by
    show max (max 4 5) 10 = 10
    rw [max_eq_right (show (4 : ℝ) ≤ 5 by norm_num),
      max_eq_right (show (5 : ℝ) ≤ 10 by norm_num)]
  have hmin4a : listMin [(4 : ℝ), 5, 10] = 4 := by
    show min (min 4 5) 10 = 4
    rw [min_eq_left (show (4 : ℝ) ≤ 5 by norm_num),
      min_eq_left (show (4 : ℝ) ≤ 10 by norm_num)]
  have hmax8 : listMax [(1 : ℝ), 3, 8] = 8 := by
    show max (max 1 3) 8 = 8
    rw [max_eq_right (show (1 : ℝ) ≤ 3 by norm_num),
      max_eq_right (show (3 : ℝ) ≤ 8 by norm_num)]
  have hmin1a : listMin [(1 : ℝ), 3, 8] = 1 := by
    show min (min 1 3) 8 = 1
    rw [min_eq_left (show (1 : ℝ) ≤ 3 by norm_num),
      min_eq_left (show (1 : ℝ) ≤ 8 by norm_num)]
  have hmax5 : listMax [(4 : ℝ), 5] = 5 := by
    show max 4 5 = 5
    rw [max_eq_right (show (4 : ℝ) ≤ 5 by norm_num)]
  have hmin4b : listMin [(4 : ℝ), 5] = 4 := by
    show min 4 5 = 4
    rw [min_eq_left (show (4 : ℝ) ≤ 5 by norm_num)]
  have hmax3 : listMax [(1 : ℝ), 3] = 3 := by
    show max 1 3 = 3
    rw [max_eq_right (show (1 : ℝ) ≤ 3 by norm_num)]
  have hmin1b : listMin [(1 : ℝ), 3] = 1 := by
    show min 1 3 = 1
    rw [min_eq_left (show (1 : ℝ) ≤ 3 by norm_num)]
  refine ⟨⟨?_, by decide, ?_⟩, ?_, ?_⟩
  · exact List.mem_cons_of_mem _ (List.mem_cons_of_mem _ (List.mem_cons_self _ _))
  · exact List.mem_cons_of_mem _ (List.mem_cons_of_mem _ (List.mem_cons_self _ _))
  · unfold get_min_max_values
    rw [if_neg (by decide), if_neg (by decide), if_neg (by decide)]
    rw [if_neg ?nonneg]
    case nonneg =>
      push_neg
      refine ⟨?_, ?_, ?_⟩
      · rw [h1, hmin4a]; norm_num
      · intro ic hic
        rw [List.mem_singleton] at hic
        subst hic
        rw [h2, hmin1a]; norm_num
      · intro lc hlc
        rw [List.mem_singleton] at hlc
        subst hlc
        rw [h3, hmin1a]; norm_num
    rw [MinMaxValues.validate, if_neg ?ssv, if_neg ?icv, if_neg ?lcv]
    case ssv => norm_num [h1, hmin4a, hmax10]
    case icv =>
      push_neg
      intro ic hic
      rw [List.mem_singleton] at hic
      subst hic
      norm_num [h2, hmin1a, hmax8]
    case lcv =>
      push_neg
      intro lc hlc
      rw [List.mem_singleton] at hlc
      subst hlc
      norm_num [h3, hmin1a, hmax8]
    show Except.ok _ = _
    simp only [Except.map]
    congr 1
    simp only [h1, h2, h3, hmin4a, hmax10, hmax8]
  · have hfl1 : ([1].filter fun ic =>
        !(nonproxy_weighted_for_ic db7w db7meta 1 ic).isEmpty) = [1] := rfl
    have hfl2 : ([1].filter fun lc =>
        !(nonproxy_weighted_for_stage db7w db7meta 1 lc).isEmpty) = [1] := rfl
    unfold bulk_fetch_min_max_values
    rw [hfl1, hfl2]
    rw [if_neg ?nonneg2]
    case nonneg2 =>
      push_neg
      refine ⟨?_, ?_, ?_⟩
      · intro ic hic
        rw [List.mem_singleton] at hic
        subst hic
        rw [h5, hmin1b]; norm_num
      · intro lc hlc
        rw [List.mem_singleton] at hlc
        subst hlc
        rw [h6, hmin1b]; norm_num
      · rw [h4, hmin4b]; norm_num
    rw [MinMaxValues.validate, if_neg ?ssv2, if_neg ?icv2, if_neg ?lcv2]
    case ssv2 => norm_num [h4, hmin4b, hmax5]
    case icv2 =>
      push_neg
      intro ic hic
      rw [List.mem_singleton] at hic
      subst hic
      norm_num [h5, hmin1b, hmax3]
    case lcv2 =>
      push_neg
      intro lc hlc
      rw [List.mem_singleton] at hlc
      subst hlc
      norm_num [h6, hmin1b, hmax3]
    show Except.ok _ = _
    simp only [Except.map]
    congr 1
    simp only [h4, h5, h6, hmin4b, hmax5, hmax3]

end

end FIT
